import Mathlib

/-!
Verification of the financial-dashboard query layer of
`src/P2_Deployment.py` (a pandas/Streamlit program).

The embedding is shallow and pure: a loaded DataFrame is a `Table`
(column schema plus a list of rows); numeric cells are `Option ℚ` with
`none` standing for pandas `NaN` (pandas `mean`/`min`/`max`/`std` skip
`NaN`, which the aggregation functions below reproduce by working on the
present values only).  Pandas boolean-mask indexing returns a copy, so
in the embedding every operation is a pure function returning a new
`Table`; the source table is an immutable value, which is exactly the
observable behavior of the script (warnings suppressed, no write-back
through views).
-/

namespace FinDash

/-- A calendar date as produced by `pd.to_datetime(df[Year], format=%Y-%m-%d)`
at line 23 of `P2_Deployment.py`: year, month, day. -/
structure Date where
  y : Nat
  m : Nat
  d : Nat
deriving DecidableEq

/-- Chronological sort key of a date (months and days are below 100 for
every date the loader accepts, so this key orders dates chronologically). -/
def Date.key (dt : Date) : Nat := dt.y * 10000 + dt.m * 100 + dt.d

/-- One row of `clustered_firms_clean.csv` after loading.  The identity
and categorical columns are the ones the script reads by name; all
numeric metric columns are kept in `metrics` as name-to-value pairs with
`none` for `NaN`; `strs` holds derived display string columns such as
`Year_str` / `Year_display` that the script assigns after filtering. -/
structure Row where
  ticker : String
  name : String
  sector : String
  industry : String
  year : Date
  cluster : Int
  metrics : List (String × Option ℚ)
  strs : List (String × String)
deriving DecidableEq

/-- A loaded DataFrame: the column schema (`df.columns`) and the rows. -/
structure Table where
  schema : List String
  rows : List Row
deriving DecidableEq

/-- Read a numeric column of a row by name (`row[field]`); `none` when the
column is absent from the row or holds `NaN`. -/
def getMetric (r : Row) (f : String) : Option ℚ := (r.metrics.lookup f).join

/-- Read a categorical/grouping column of a row by name, as the string used
for grouping keys (`Cluster` groups by its printed label, `Year_str` by the
formatted date, mirroring lines 189-190 and 275 of the script). -/
def getKey (r : Row) (f : String) : String :=
  if f = "Ticker" then r.ticker
  else if f = "Name" then r.name
  else if f = "Sector" then r.sector
  else if f = "Industry" then r.industry
  else if f = "Cluster" then toString r.cluster
  else if f = "Year_str" then ((r.strs.lookup "Year_str").getD "")
  else ""

/-! ### Dataset loader (`load_data`, lines 19-27)

`pd.read_csv` is modelled by a list of raw rows whose `Year` cell is still
the CSV string.  `pd.to_datetime(df[Year], format=%Y-%m-%d)` is called
with the default `errors=raise`, so an unparsable cell raises `ValueError`;
the `try` block at line 21 only catches `FileNotFoundError`, hence a parse
failure aborts the whole load.  `loadData` reproduces this: it either
parses every `Year` cell or fails with `LoadError.yearParse`. -/

/-- A CSV row before the `Year` column is parsed. -/
structure RawRow where
  ticker : String
  name : String
  sector : String
  industry : String
  year : String
  cluster : Int
  metrics : List (String × Option ℚ)
deriving DecidableEq

/-- The failures of `load_data`: a missing file (caught, line 25) or an
unparsable `Year` cell (uncaught `ValueError` from `pd.to_datetime`). -/
inductive LoadError where
  | notFound
  | yearParse
deriving DecidableEq

/-- Split a character list at every dash, keeping empty pieces. -/
def splitDash : List Char → List Char → List (List Char)
  | [], acc => [acc.reverse]
  | c :: rest, acc =>
      if c = '-' then acc.reverse :: splitDash rest []
      else splitDash rest (c :: acc)

/-- Parse a nonempty all-digit character list as a natural number. -/
def digitsVal (cs : List Char) : Option Nat :=
  if cs ≠ [] ∧ cs.all (fun c => c.isDigit) then
    some (cs.foldl (fun n c => n * 10 + (c.toNat - 48)) 0)
  else none

/-- Gregorian leap year. -/
def isLeap (y : Nat) : Bool := y % 4 == 0 && (y % 100 != 0 || y % 400 == 0)

/-- Days in a month of the Gregorian calendar. -/
def daysInMonth (y m : Nat) : Nat :=
  if m == 2 then (if isLeap y then 29 else 28)
  else if m == 4 || m == 6 || m == 9 || m == 11 then 30
  else 31

/-- Strict `%Y-%m-%d` parse, as `pd.to_datetime` performs it: three
dash-separated digit groups forming a valid calendar date. -/
def parseYMD (s : String) : Option Date :=
  match splitDash s.data [] with
  | [ys, ms, ds] =>
    match digitsVal ys, digitsVal ms, digitsVal ds with
    | some yv, some mv, some dv =>
        if 1 ≤ mv ∧ mv ≤ 12 ∧ 1 ≤ dv ∧ dv ≤ daysInMonth yv mv then
          some { y := yv, m := mv, d := dv }
        else none
    | _, _, _ => none
  | _ => none

/-- Parse one raw row: succeeds exactly when its `Year` cell parses. -/
def loadRow (r : RawRow) : Option Row :=
  (parseYMD r.year).map (fun dt =>
    { ticker := r.ticker, name := r.name, sector := r.sector,
      industry := r.industry, year := dt, cluster := r.cluster,
      metrics := r.metrics, strs := [] })

/-- Parse the whole `Year` column; `none` as soon as one cell fails,
modelling the uncaught `ValueError` of `pd.to_datetime(errors=raise)`. -/
def loadRows : List RawRow → Option (List Row)
  | [] => some []
  | r :: rest =>
      match loadRow r with
      | some row => (loadRows rest).map (fun rs => row :: rs)
      | none => none

/-- `load_data` after `pd.read_csv` succeeded: parse the `Year` column,
aborting the load on the first unparsable cell. -/
def loadData (schema : List String) (raws : List RawRow) : Except LoadError Table :=
  match loadRows raws with
  | some rows => Except.ok { schema := schema, rows := rows }
  | none => Except.error LoadError.yearParse

instance {ε α : Type} [DecidableEq ε] [DecidableEq α] : DecidableEq (Except ε α)
  | Except.ok a, Except.ok b =>
      if h : a = b then isTrue (by rw [h])
      else isFalse (by intro he; cases he; exact h rfl)
  | Except.ok _, Except.error _ => isFalse (by intro he; cases he)
  | Except.error _, Except.ok _ => isFalse (by intro he; cases he)
  | Except.error e, Except.error f =>
      if h : e = f then isTrue (by rw [h])
      else isFalse (by intro he; cases he; exact h rfl)

/-- A year cell as the specification describes the loader keeping it:
parsed when possible, the original string otherwise. -/
inductive YearVal where
  | parsed (d : Date)
  | raw (s : String)
deriving DecidableEq

/-- Tolerant year parsing stated from the words of spec section 4.1: if
parsing fails, the record keeps the original string instead of aborting
the load.  Stated for comparison against the strict `loadData` above. -/
def specParseYear (s : String) : YearVal :=
  match parseYMD s with
  | some d => YearVal.parsed d
  | none => YearVal.raw s

/-! ### Filter engine

The script filters with boolean masks: `df[df[Ticker] == t]` (line 75),
`df[df[Sector] == s]` (line 181), `df[df[Cluster] == c]` (line 267),
a within-sector cluster filter (line 253), and the Data Explorer branch
on `filter_option` (lines 353-360). -/

/-- The equality predicates the script filters with, closed under the
conjunction formed by filtering a filtered frame again. -/
inductive Pred where
  | tickerEq (v : String)
  | sectorEq (v : String)
  | clusterEq (v : Int)
  | all
  | and (p q : Pred)
deriving DecidableEq

/-- Boolean mask of a predicate on one row. -/
def evalPred : Pred → Row → Bool
  | Pred.tickerEq v, r => r.ticker == v
  | Pred.sectorEq v, r => r.sector == v
  | Pred.clusterEq v, r => r.cluster == v
  | Pred.all, _ => true
  | Pred.and p q, r => evalPred p r && evalPred q r

/-- Boolean-mask filtering `df[mask]`: a new table of the matching rows in
their original order; the input table is untouched (pandas returns a copy). -/
def filterT (t : Table) (p : Pred) : Table :=
  { schema := t.schema, rows := t.rows.filter (evalPred p) }

/-- `strftime(%Y-%m-%d)` of a parsed date: zero-padded pieces. -/
def padZeros (w : Nat) (n : Nat) : String :=
  let s := toString n
  String.mk (List.replicate (w - s.length) '0') ++ s

/-- Format a date back to `YYYY-MM-DD` (`dt.strftime(%Y-%m-%d)`). -/
def fmtDate (dt : Date) : String :=
  padZeros 4 dt.y ++ "-" ++ padZeros 2 dt.m ++ "-" ++ padZeros 2 dt.d

/-- Line 189: `sector_data[Year_str] = sector_data[Year].dt.strftime(...)`.
Adds the derived string column to a (filtered) copy; pure, so the table the
filter was taken from is unaffected by construction. -/
def addYearStr (t : Table) : Table :=
  { schema := t.schema ++ ["Year_str"],
    rows := t.rows.map (fun r =>
      { r with strs := r.strs ++ [("Year_str", fmtDate r.year)] }) }

/-- Lines 181-190 of the sector tab as one pipeline, returning the global
frame `df` (still used by the later tabs) next to the derived frame. -/
def sectorTabPipeline (df : Table) (s : String) : Table × Table :=
  (df, addYearStr (filterT df (Pred.sectorEq s)))

/-! ### Aggregator -/

/-- Mean of the present values of a column, pandas `mean(skipna=True)`:
`NaN` (here `none`) on an all-missing column. -/
def optMean (l : List ℚ) : Option ℚ :=
  if l.isEmpty then none else some (l.sum / l.length)

/-- Minimum of the present values of a column (`Series.min`). -/
def optMin (l : List ℚ) : Option ℚ :=
  l.foldl (fun acc x =>
    match acc with
    | none => some x
    | some y => some (if x < y then x else y)) none

/-- Maximum of the present values of a column (`Series.max`). -/
def optMax (l : List ℚ) : Option ℚ :=
  l.foldl (fun acc x =>
    match acc with
    | none => some x
    | some y => some (if x > y then x else y)) none

/-- Sample variance (`ddof=1`, the square of `Series.std`); `none` for
fewer than two present values, where pandas yields `NaN`.  The script
prints `std`, the square root of this; the root is irrelevant to the
guard behavior verified here. -/
def optVarSample (l : List ℚ) : Option ℚ :=
  if l.length < 2 then none
  else
    match optMean l with
    | none => none
    | some mu => some ((l.map (fun x => (x - mu) * (x - mu))).sum / (l.length - 1 : Nat))

/-- The present values of column `m` down a table (`df[m]` minus `NaN`). -/
def colVals (t : Table) (m : String) : List ℚ :=
  t.rows.filterMap (fun r => getMetric r m)

/-- The figures of the Summary Statistics metric block (lines 401-407).
The script prints them only inside `if selected_metric in df.columns:`;
when the column is absent the block is silently skipped, which the
`Option` models — there is no error branch in the source. -/
structure StatsBlock where
  mean : Option ℚ
  minVal : Option ℚ
  maxVal : Option ℚ
  varSample : Option ℚ
deriving DecidableEq

/-- Lines 401-407: the metric statistics block, `none` (nothing shown,
no error raised) when the requested column is not in `df.columns`. -/
def metricStatistics (t : Table) (m : String) : Option StatsBlock :=
  if m ∈ t.schema then
    some { mean := optMean (colVals t m), minVal := optMin (colVals t m),
           maxVal := optMax (colVals t m), varSample := optVarSample (colVals t m) }
  else none

/-- The error taxonomy of spec section 7 for aggregator queries. -/
inductive QueryError where
  | unknownField
  | missingField
deriving DecidableEq

/-- The statistics operation stated from the words of spec section 4.3:
fail with `QueryError::MissingField` when the requested field is absent
from the schema, rather than silently returning nothing.  Stated for
comparison against `metricStatistics`, the behavior of the source. -/
def specMetricStatistics (t : Table) (m : String) : Except QueryError StatsBlock :=
  if m ∈ t.schema then
    Except.ok { mean := optMean (colVals t m), minVal := optMin (colVals t m),
                maxVal := optMax (colVals t m), varSample := optVarSample (colVals t m) }
  else Except.error QueryError.missingField

/-- Byte-lexicographic comparison of character lists, the order pandas
sorts string group keys by. -/
def strLeCh : List Char → List Char → Bool
  | [], _ => true
  | _ :: _, [] => false
  | a :: as, b :: bs =>
      if a.toNat < b.toNat then true
      else if b.toNat < a.toNat then false
      else strLeCh as bs

/-- Lexicographic order on strings as an executable relation. -/
def strLeR (a b : String) : Prop := strLeCh a.data b.data = true

instance : DecidableRel strLeR := fun a b => instDecidableEqBool (strLeCh a.data b.data) true

/-- The distinct group keys of `groupby(gf)` in ascending key order
(pandas `groupby` sorts group keys by default). -/
def groupKeys (rows : List Row) (gf : String) : List String :=
  List.insertionSort strLeR ((rows.map (fun r => getKey r gf)).dedup)

/-- The rows of one group of `groupby(gf)`. -/
def groupRows (rows : List Row) (gf : String) (k : String) : List Row :=
  rows.filter (fun r => getKey r gf == k)

/-- `groupby(gf).agg({f: mean for f in vfs})` (lines 190-195 and 275-279):
for every group key, the per-column mean over the present values of that
column within the group — a row missing one column is skipped for that
column only, never dropped from the group. -/
def groupMean (t : Table) (gf : String) (vfs : List String) :
    List (String × List (String × Option ℚ)) :=
  (groupKeys t.rows gf).map (fun k =>
    (k, vfs.map (fun f =>
      (f, optMean ((groupRows t.rows gf k).filterMap (fun r => getMetric r f))))))

/-- Look a group and a column up in a `groupMean` result. -/
def lookupField (gm : List (String × List (String × Option ℚ)))
    (k f : String) : Option (Option ℚ) :=
  (gm.lookup k).bind (fun fs => fs.lookup f)

/-! ### Company tab (lines 71-127) -/

/-- Rows ordered by year ascending (`sort_values(Year)`). -/
def rowLe (a b : Row) : Prop := a.year.key ≤ b.year.key

instance : DecidableRel rowLe := fun a b => Nat.decLe a.year.key b.year.key

instance : IsTotal Row rowLe := ⟨fun a b => Nat.le_total a.year.key b.year.key⟩

instance : IsTrans Row rowLe := ⟨fun _ _ _ hab hbc => Nat.le_trans hab hbc⟩

/-- Line 75: `df[df[Ticker] == selected_ticker].sort_values(Year)`. -/
def companyData (t : Table) (tk : String) : List Row :=
  List.insertionSort rowLe (t.rows.filter (fun r => r.ticker == tk))

/-- Lines 76 and 110: when the company history is nonempty, the snapshot
`latest_data = company_data.iloc[-1]` next to the full history;
`none` when the history is empty (the script shows a warning instead). -/
def companyProfile (t : Table) (tk : String) : Option (Row × List Row) :=
  match (companyData t tk).getLast? with
  | some latest => some (latest, companyData t tk)
  | none => none

/-- Line 115: the value charted as Interest Coverage —
`x if x != 0 else 0`. -/
def interestCoverageGuard (x : ℚ) : ℚ := if x ≠ 0 then x else 0

/-- Lines 111-117: the financial-ratios chart data of the latest year. -/
def ratioData (latest : Row) : List (String × Option ℚ) :=
  [("ROE", getMetric latest "ROE"),
   ("ROA", getMetric latest "ROA"),
   ("Asset Turnover", getMetric latest "Asset_Turnover"),
   ("Interest Coverage", (getMetric latest "Interest_Coverage").map interestCoverageGuard),
   ("Debt/Equity", getMetric latest "Debt_to_Equity")]

/-! ### Data Explorer (lines 338-407) -/

/-- The sidebar selections (lines 45-61). -/
structure Selections where
  ticker : String
  sector : String
  cluster : Int
deriving DecidableEq

/-- The `filter_option` radio buttons (lines 347-351). -/
inductive FilterOption where
  | allData
  | company
  | sector
  | cluster
deriving DecidableEq

/-- Lines 353-360: the Data Explorer filter branches. -/
def explorerFilter (df : Table) (sel : Selections) (opt : FilterOption) : Table :=
  match opt with
  | FilterOption.company => filterT df (Pred.tickerEq sel.ticker)
  | FilterOption.sector => filterT df (Pred.sectorEq sel.sector)
  | FilterOption.cluster => filterT df (Pred.clusterEq sel.cluster)
  | FilterOption.allData => df

/-- Lines 376-378: the fixed display column list `cols_to_show`. -/
def colsToShow : List String :=
  ["Ticker", "Name", "Sector", "Industry", "Year_display",
   "Gross_Margin", "Operating_Margin", "Net_Margin", "ROA", "ROE",
   "Cluster", "Predicted_ROA"]

/-- Line 379: `[col for col in cols_to_show if col in display_df.columns]`. -/
def displayCols (schema : List String) : List String :=
  colsToShow.filter (fun c => decide (c ∈ schema))

/-- Number of distinct values (`Series.nunique`). -/
def nunique {α : Type} [DecidableEq α] (l : List α) : Nat := l.dedup.length

/-- Lines 387-390: the four Summary Statistics figures, computed from the
full frame `df`, not from the filtered `display_df`. -/
def summaryStats (df : Table) : Nat × Nat × Nat × Nat :=
  (df.rows.length,
   nunique (df.rows.map Row.ticker),
   nunique (df.rows.map Row.sector),
   nunique (df.rows.map Row.cluster))

/-- One run of the Data Explorer tab: the filtered frame to display and
the Summary Statistics figures. -/
def dataExplorer (df : Table) (sel : Selections) (opt : FilterOption) :
    Table × (Nat × Nat × Nat × Nat) :=
  (explorerFilter df sel opt, summaryStats df)

/-! ### Concrete sample data used by the closed check theorems -/

/-- Sample row: AAA in 2020, with a missing (`NaN`) ROE cell. -/
def exRowA : Row :=
  { ticker := "AAA", name := "Alpha", sector := "Tech", industry := "Software",
    year := { y := 2020, m := 1, d := 1 }, cluster := 1,
    metrics := [("ROA", some (mkRat 1 10)), ("ROE", none)], strs := [] }

/-- Sample row: AAA in 2021. -/
def exRowB : Row :=
  { ticker := "AAA", name := "Alpha", sector := "Tech", industry := "Software",
    year := { y := 2021, m := 1, d := 1 }, cluster := 1,
    metrics := [("ROA", some (mkRat 3 25)), ("ROE", some (mkRat 1 5))], strs := [] }

/-- Sample row: BBB in 2020, a different sector and cluster. -/
def exRowC : Row :=
  { ticker := "BBB", name := "Beta", sector := "Energy", industry := "Oil",
    year := { y := 2020, m := 1, d := 1 }, cluster := 2,
    metrics := [("ROA", some (mkRat 1 20)), ("ROE", some (mkRat 1 4))], strs := [] }

/-- A small loaded table (AAA rows deliberately out of year order). -/
def exTable : Table :=
  { schema := ["Ticker", "Name", "Sector", "Industry", "Year", "ROA", "ROE", "Cluster"],
    rows := [exRowB, exRowC, exRowA] }

/-- A table whose schema lacks the `ROA` column. -/
def exTableNoROA : Table :=
  { schema := ["Ticker", "Name", "Sector", "Year"], rows := [exRowC] }

/-- A table whose schema lacks the `ROE` column. -/
def exTableNoROE : Table :=
  { schema := ["Ticker", "Name", "Sector", "Year", "ROA"], rows := [exRowA] }

/-- A raw CSV row with a well-formed `Year` cell. -/
def exRawGood : RawRow :=
  { ticker := "AAA", name := "Alpha", sector := "Tech", industry := "Software",
    year := "2020-01-01", cluster := 1, metrics := [("ROA", some (mkRat 1 10))] }

/-- A raw CSV row whose `Year` cell does not parse as `%Y-%m-%d`. -/
def exRawBad : RawRow :=
  { ticker := "BBB", name := "Beta", sector := "Energy", industry := "Oil",
    year := "N/A", cluster := 2, metrics := [] }

/-- The schema handed to the sample loads. -/
def exSchema : List String :=
  ["Ticker", "Name", "Sector", "Industry", "Year", "ROA", "ROE", "Cluster"]

/-! ### Helper lemmas -/

theorem lookup_map_self {β : Type} (g : String → β) :
    ∀ (l : List String) (k : String), k ∈ l →
      (l.map (fun x => (x, g x))).lookup k = some (g k) := by
  intro l
  induction l with
  | nil => intro k hk; cases hk
  | cons x xs ih =>
    intro k hk
    by_cases h : k = x
    · subst h
      simp [List.lookup]
    · have hx : k ∈ xs := by
        cases List.mem_cons.mp hk with
        | inl he => exact absurd he h
        | inr hm => exact hm
      have hb : (k == x) = false := by simp [h]
      simp [List.lookup, hb, ih k hx]

theorem loadRows_none_of_bad {raws : List RawRow} {r : RawRow}
    (hr : r ∈ raws) (hp : parseYMD r.year = none) : loadRows raws = none := by
  induction raws with
  | nil => cases hr
  | cons x xs ih =>
    cases List.mem_cons.mp hr with
    | inl he =>
      subst he
      simp [loadRows, loadRow, hp]
    | inr hm =>
      cases hx : loadRow x with
      | none => simp [loadRows, hx]
      | some row => simp [loadRows, hx, ih hm]

theorem loadRows_some_of_good {raws : List RawRow}
    (h : ∀ r ∈ raws, (parseYMD r.year).isSome) :
    ∃ rows, loadRows raws = some rows ∧ rows.length = raws.length := by
  induction raws with
  | nil => exact ⟨[], rfl, rfl⟩
  | cons x xs ih =>
    have hx : (parseYMD x.year).isSome := h x (List.mem_cons_self x xs)
    have hlr : (loadRow x).isSome := by
      obtain ⟨dt, hdt⟩ := Option.isSome_iff_exists.mp hx
      simp [loadRow, hdt]
    obtain ⟨row, hrow⟩ := Option.isSome_iff_exists.mp hlr
    obtain ⟨rows, hrows, hlen⟩ := ih (fun r hrm => h r (List.mem_cons_of_mem x hrm))
    refine ⟨row :: rows, ?_, ?_⟩
    · simp [loadRows, hrow, hrows]
    · simp [hlen]

theorem filter_and_eq (l : List Row) (p q : Pred) :
    (l.filter (evalPred p)).filter (evalPred q) = l.filter (evalPred (Pred.and p q)) := by
  induction l with
  | nil => rfl
  | cons a as ih =>
    cases hp : evalPred p a <;> cases hq : evalPred q a <;>
      simp [List.filter, hp, hq, evalPred, ih]

theorem rowLe_of_sorted_getLast? :
    ∀ (l : List Row) (a : Row), List.Sorted rowLe l → l.getLast? = some a →
      ∀ r ∈ l, rowLe r a := by
  intro l
  induction l with
  | nil => intro a _ ha; cases ha
  | cons x xs ih =>
    intro a hs ha r hr
    cases xs with
    | nil =>
      have hax : x = a := by simpa using ha
      have hrx : r = x := by simpa using hr
      subst hax; subst hrx
      exact Nat.le_refl _
    | cons y ys =>
      have ha2 : (y :: ys).getLast? = some a := by simpa using ha
      have hs2 := List.sorted_cons.mp hs
      cases List.mem_cons.mp hr with
      | inl he =>
        subst he
        exact hs2.1 a (List.mem_of_getLast?_eq_some ha2)
      | inr hm =>
        exact ih a hs2.2 ha2 r hm

/-! ### Claim theorems -/

/-- C1 counterexample: the code silently skips a missing statistics field.
On a table whose schema lacks `ROA`, the statistics block of lines
401-407 evaluates to `none` (nothing is shown and nothing is raised),
while the behavior the claim describes (`specMetricStatistics`, worded
from the spec) would fail with `QueryError::MissingField`.  The claimed
explicit failure does not exist in the source, refuting the claim. -/
theorem claim_C1_counterexample :
    metricStatistics exTableNoROA "ROA" = none ∧
    specMetricStatistics exTableNoROA "ROA" = Except.error QueryError.missingField ∧
    ¬ "ROA" ∈ exTableNoROA.schema := by decide

/-- C1 (amended): when a requested field is absent from the table schema,
the statistics block is silently skipped (it produces no output and no
error), and the display-column selection silently drops the absent
column; no error value exists in either path. -/
theorem claim_C1_missing_field_silently_skipped (t : Table) (m : String)
    (h : ¬ m ∈ t.schema) :
    metricStatistics t m = none ∧ ¬ m ∈ displayCols t.schema := by
  constructor
  · simp [metricStatistics, h]
  · intro hc
    simp [displayCols] at hc
    exact h hc.2

/-- C1 witness: the amended statement at a concrete table lacking `ROE`. -/
theorem claim_C1_witness :
    metricStatistics exTableNoROE "ROE" = none ∧
    ¬ "ROE" ∈ displayCols exTableNoROE.schema :=
  claim_C1_missing_field_silently_skipped exTableNoROE "ROE" (by decide)

/-- C2 counterexample: one unparsable `Year` cell aborts the whole load.
`pd.to_datetime(..., format=%Y-%m-%d)` runs with the default
`errors=raise`, and the `try` at line 21 catches only
`FileNotFoundError`, so the `ValueError` propagates: the load of a file
holding one good row and one row with `Year = N/A` produces an error and
no table, while the claim says the row would keep its original string
(`specParseYear`, worded from the spec) and the load would succeed. -/
theorem claim_C2_counterexample :
    loadData exSchema [exRawGood, exRawBad] = Except.error LoadError.yearParse ∧
    specParseYear exRawBad.year = YearVal.raw "N/A" := by decide

/-- C2 (amended): the loader parses the `Year` column with the strict
format `%Y-%m-%d`; if any cell fails to parse the entire load aborts
with the uncaught parse error, and when every cell parses the load
succeeds with one loaded row per raw row. -/
theorem claim_C2_load_aborts_on_bad_year (schema : List String) (raws : List RawRow) :
    ((∃ r ∈ raws, parseYMD r.year = none) →
      loadData schema raws = Except.error LoadError.yearParse) ∧
    ((∀ r ∈ raws, (parseYMD r.year).isSome) →
      ∃ tbl, loadData schema raws = Except.ok tbl ∧ tbl.rows.length = raws.length) := by
  constructor
  · rintro ⟨r, hr, hp⟩
    have h := loadRows_none_of_bad hr hp
    simp [loadData, h]
  · intro h
    obtain ⟨rows, hrows, hlen⟩ := loadRows_some_of_good h
    exact ⟨{ schema := schema, rows := rows }, by simp [loadData, hrows], hlen⟩

/-- C2 witness: the amended statement at concrete loads, one aborting on
`Year = N/A` and one succeeding on a well-formed file. -/
theorem claim_C2_witness :
    loadData exSchema [exRawBad] = Except.error LoadError.yearParse ∧
    (∃ tbl, loadData exSchema [exRawGood] = Except.ok tbl ∧
      tbl.rows.length = [exRawGood].length) :=
  ⟨(claim_C2_load_aborts_on_bad_year exSchema [exRawBad]).1 ⟨exRawBad, by decide, by decide⟩,
   (claim_C2_load_aborts_on_bad_year exSchema [exRawGood]).2 (by decide)⟩

/-- C3: filtering returns a new table holding exactly the rows matching
the predicate, in their original order, with the schema unchanged; the
embedding is pure, matching pandas boolean-mask indexing which returns a
copy (the `Year_str` assignment of line 189 writes to that copy), so the
input table is left unchanged by the filter and by any subsequent
operation on the filtered result, as the sector-tab pipeline conjunct
states. -/
theorem claim_C3_filter_exact_and_pure (t : Table) (p : Pred) :
    (filterT t p).schema = t.schema ∧
    (filterT t p).rows = t.rows.filter (evalPred p) ∧
    (∀ r, r ∈ (filterT t p).rows ↔ (r ∈ t.rows ∧ evalPred p r = true)) ∧
    (∀ s, (sectorTabPipeline t s).1 = t) := by
  refine ⟨rfl, rfl, ?_, fun s => rfl⟩
  intro r
  simp [filterT]

/-- C4: `groupby(gf).agg(mean)` computes, for every group key and every
requested value field, the mean over exactly the present values of that
field among all rows of the group; a row with a missing value for one
field still has its present value for any other field included in that
other mean (second conjunct), so it is never dropped from the group. -/
theorem claim_C4_group_mean_per_field (t : Table) (gf : String) (vfs : List String)
    (k f : String) (hk : k ∈ groupKeys t.rows gf) (hf : f ∈ vfs) :
    lookupField (groupMean t gf vfs) k f =
      some (optMean ((groupRows t.rows gf k).filterMap (fun r => getMetric r f))) ∧
    (∀ r, r ∈ groupRows t.rows gf k → ∀ q, getMetric r f = some q →
      q ∈ (groupRows t.rows gf k).filterMap (fun r2 => getMetric r2 f)) := by
  constructor
  · have houter := lookup_map_self
      (fun k2 => vfs.map (fun f2 =>
        (f2, optMean ((groupRows t.rows gf k2).filterMap (fun r => getMetric r f2)))))
      (groupKeys t.rows gf) k hk
    have hinner := lookup_map_self
      (fun f2 => optMean ((groupRows t.rows gf k).filterMap (fun r => getMetric r f2)))
      vfs f hf
    simp only [groupMean, lookupField, houter]
    simpa using hinner
  · intro r hr q hq
    exact List.mem_filterMap.mpr ⟨r, hr, hq⟩

/-- C4 witness: the theorem at a concrete table in which the Tech group
holds a row with a present ROA but missing ROE next to a row with both
present, exercising the per-field exclusion. -/
theorem claim_C4_witness :
    lookupField (groupMean exTable "Sector" ["ROA", "ROE"]) "Tech" "ROE" =
      some (optMean ((groupRows exTable.rows "Sector" "Tech").filterMap
        (fun r => getMetric r "ROE"))) ∧
    (∀ r, r ∈ groupRows exTable.rows "Sector" "Tech" → ∀ q, getMetric r "ROE" = some q →
      q ∈ (groupRows exTable.rows "Sector" "Tech").filterMap (fun r2 => getMetric r2 "ROE")) :=
  claim_C4_group_mean_per_field exTable "Sector" ["ROA", "ROE"] "Tech" "ROE"
    (by decide) (by decide)

/-- C5: filtering with `p` and then with a stricter `q` equals one filter
with the combined predicate `p` and `q` (the conjunction built by
filtering a filtered frame again, as the within-sector cluster filter of
line 253 does). -/
theorem claim_C5_filter_compose (t : Table) (p q : Pred)
    (_hq : ∀ r, evalPred q r = true → evalPred p r = true) :
    filterT (filterT t p) q = filterT t (Pred.and p q) := by
  have h := filter_and_eq t.rows p q
  simp [filterT, h]

/-- C5 witness: the theorem at a concrete table with a strictly finer
second predicate (same sector and additionally cluster 1). -/
theorem claim_C5_witness :
    filterT (filterT exTable (Pred.sectorEq "Tech"))
        (Pred.and (Pred.sectorEq "Tech") (Pred.clusterEq 1)) =
      filterT exTable (Pred.and (Pred.sectorEq "Tech")
        (Pred.and (Pred.sectorEq "Tech") (Pred.clusterEq 1))) :=
  claim_C5_filter_compose exTable (Pred.sectorEq "Tech")
    (Pred.and (Pred.sectorEq "Tech") (Pred.clusterEq 1))
    (fun _ h => (Bool.and_eq_true _ _ ▸ h).1)

/-- C7: the company history is the selected ticker rows sorted by year
ascending (a permutation of the filter, sorted under `rowLe`), and when
the history is nonempty the snapshot `iloc[-1]` is a row of the history
whose year is greatest among that ticker rows. -/
theorem claim_C7_company_profile (t : Table) (tk : String) :
    List.Perm (companyData t tk) (t.rows.filter (fun r => r.ticker == tk)) ∧
    List.Sorted rowLe (companyData t tk) ∧
    (∀ latest hist, companyProfile t tk = some (latest, hist) →
      hist = companyData t tk ∧ latest ∈ hist ∧ ∀ r ∈ hist, rowLe r latest) := by
  refine ⟨List.perm_insertionSort rowLe _, List.sorted_insertionSort rowLe _, ?_⟩
  intro latest hist h
  unfold companyProfile at h
  revert h
  cases hl : (companyData t tk).getLast? with
  | none =>
    intro h
    cases h
  | some last0 =>
    intro h
    have h2 := Option.some.inj h
    have hlat : last0 = latest := congrArg Prod.fst h2
    have hhist : companyData t tk = hist := congrArg Prod.snd h2
    refine ⟨hhist.symm, ?_, ?_⟩
    · rw [← hhist, ← hlat]
      exact List.mem_of_getLast?_eq_some hl
    · intro r hr
      rw [← hhist] at hr
      rw [← hlat]
      exact rowLe_of_sorted_getLast? (companyData t tk) last0
        (List.sorted_insertionSort rowLe _) hl r hr

/-- C7 witness: the snapshot conjunct at a concrete table whose AAA rows
are stored out of year order; the snapshot is the 2021 row. -/
theorem claim_C7_witness :
    exRowB ∈ companyData exTable "AAA" ∧
    ∀ r ∈ companyData exTable "AAA", rowLe r exRowB := by
  have h := (claim_C7_company_profile exTable "AAA").2.2 exRowB
    (companyData exTable "AAA") (by decide)
  exact ⟨h.2.1, h.2.2⟩

/-- C8: the zero-guard `x if x != 0 else 0` of line 115 is the identity,
so the Interest Coverage value placed in the financial-ratios chart
equals the record value unchanged (second conjunct: the chart data with
the guard equals the chart data built from the raw values). -/
theorem claim_C8_interest_coverage_guard_identity :
    (∀ x : ℚ, interestCoverageGuard x = x) ∧
    (∀ latest : Row, ratioData latest =
      [("ROE", getMetric latest "ROE"),
       ("ROA", getMetric latest "ROA"),
       ("Asset Turnover", getMetric latest "Asset_Turnover"),
       ("Interest Coverage", getMetric latest "Interest_Coverage"),
       ("Debt/Equity", getMetric latest "Debt_to_Equity")]) := by
  have hg : ∀ x : ℚ, interestCoverageGuard x = x := by
    intro x
    by_cases h : x = 0
    · simp [interestCoverageGuard, h]
    · simp [interestCoverageGuard, h]
  have hmap : ∀ o : Option ℚ, o.map interestCoverageGuard = o := by
    intro o
    cases o with
    | none => rfl
    | some x => simp [hg x]
  exact ⟨hg, fun latest => by simp [ratioData, hmap]⟩

/-- C9: the Data Explorer displays exactly the columns of the fixed
`cols_to_show` list present in the frame, in the fixed-list order (the
result is a sublist of the fixed list), depending on the schema only
through membership, and absent columns are skipped without error. -/
theorem claim_C9_display_columns (s : List String) :
    List.Sublist (displayCols s) colsToShow ∧
    (∀ c, c ∈ displayCols s ↔ (c ∈ colsToShow ∧ c ∈ s)) := by
  constructor
  · unfold displayCols
    exact List.filter_sublist colsToShow
  · intro c
    simp [displayCols]

/-- C10: the four Summary Statistics figures are computed from the full
frame `df`, so two Data Explorer runs on the same loaded table with any
different selections and filter options report identical figures. -/
theorem claim_C10_summary_stats_selection_invariant (df : Table)
    (s1 s2 : Selections) (o1 o2 : FilterOption) :
    (dataExplorer df s1 o1).2 = (dataExplorer df s2 o2).2 := rfl

end FinDash
